import Mathlib

/-
Shallow embedding of the seoul-apt-rank collection/aggregation/cache pipeline
(src/apt_rank.py) and proofs about it.

The Python source works over provider XML items, pandas DataFrames and two CSV
artifacts.  The embedding models:
  * one XML `<item>` as a record of optional tag texts (`ET.findtext` returns
    `None` for a missing tag, hence `Option String`);
  * a DataFrame of transactions as a `List TransactionRecord`;
  * the two on-disk artifacts as explicit state (`DiskState`);
  * Python `str` methods (`strip`, `replace`, `zfill`, `int()`, `float()`,
    string comparison) as executable functions over `String.data`, because the
    corresponding Lean core functions do not reduce in the kernel;
  * Python floats (the `전용면적` floor-area field) as `ℚ`: every value the
    parser ever produces comes from a finite decimal literal or is `0.0`.

Korean identifiers are not valid Lean identifiers, so the DataFrame column
names are romanized; each definition states the column it models.
-/

namespace AptRank

/-! ### Models of the Python string primitives used by apt_rank.py -/

/-- Characters treated as whitespace by Python's `str.strip()` (the subset
that can occur in provider text). -/
def isWs (c : Char) : Bool := c = ' ' || c = '\t' || c = '\n' || c = '\r'

/-- Drop leading and trailing whitespace from a character list. -/
def trimChars (l : List Char) : List Char :=
  ((l.dropWhile isWs).reverse.dropWhile isWs).reverse

/-- Model of Python `str.strip()`. -/
def pyStrip (s : String) : String := String.mk (trimChars s.data)

/-- Model of Python `str.replace(",", "")`: the pattern is a single character,
so replacement is character filtering. -/
def removeCommas (s : String) : String := String.mk (s.data.filter (fun c => c ≠ ','))

/-- Numeric value of a digit list (the digits of a decimal literal). -/
def digitsVal (l : List Char) : ℕ := l.foldl (fun a c => a * 10 + (c.toNat - 48)) 0

/-- Model of Python `int(s)` on an already-stripped string: an optional sign
followed by at least one digit; anything else raises, modelled as `none`. -/
def pyInt? (s : String) : Option Int :=
  match s.data with
  | [] => none
  | '-' :: rest => if rest ≠ [] ∧ rest.all Char.isDigit then some (-(digitsVal rest : Int)) else none
  | '+' :: rest => if rest ≠ [] ∧ rest.all Char.isDigit then some ((digitsVal rest : Int)) else none
  | l => if l.all Char.isDigit then some ((digitsVal l : Int)) else none

/-- Value of an unsigned decimal literal split at the dot: integer digits
`ip` and fractional digits `fp`, i.e. the rational (ip·10^k + fp) / 10^k.
(`mkRat` rather than `/` so that the kernel can evaluate parsed areas.) -/
def decimalVal (ip fp : List Char) : ℚ :=
  mkRat ((digitsVal ip * 10 ^ fp.length + digitsVal fp : ℕ) : Int) (10 ^ fp.length)

/-- Split a character list at its first `'.'`: the part before it, and the
part after it when a dot is present. -/
def breakDot : List Char → List Char × Option (List Char)
  | [] => ([], none)
  | '.' :: rest => ([], some rest)
  | c :: rest => ((breakDot rest).1.cons c, (breakDot rest).2)

/-- Unsigned core of a Python `float` literal: `digits`, `digits.`, `.digits`
or `digits.digits` (a second dot lands in the fractional part and fails the
all-digits test, as `float()` would reject it). -/
def pyFloatCore? (l : List Char) : Option ℚ :=
  match breakDot l with
  | (ip, none) => if ip ≠ [] ∧ ip.all Char.isDigit then some ((digitsVal ip : ℚ)) else none
  | (ip, some fp) =>
    if (ip ++ fp) ≠ [] ∧ (ip ++ fp).all Char.isDigit then some (decimalVal ip fp) else none

/-- Model of Python `float(s)` on the provider's plain decimal strings:
surrounding whitespace is ignored, an optional sign precedes the literal.
Exotic forms (exponents, `inf`, `nan`) never occur in the provider feed and
are treated as unparsable. -/
def pyFloat? (s : String) : Option ℚ :=
  match trimChars s.data with
  | [] => none
  | '-' :: rest => (pyFloatCore? rest).map (fun q => -q)
  | '+' :: rest => pyFloatCore? rest
  | l => pyFloatCore? l

/-- Model of Python `str.zfill(2)`: pad on the left with `'0'` to length 2
(the parser only ever applies it to unsigned month/day digit strings). -/
def zfill2 (s : String) : String :=
  if s.length < 2 then String.mk (List.replicate (2 - s.length) '0' ++ s.data) else s

/-- Python truthiness of an `ET.findtext` result: `None` and `""` are falsy. -/
def truthy : Option String → Bool
  | none => false
  | some s => s ≠ ""

/-- Model of Python `a or d` where `a` is an `ET.findtext` result and `d` the
next alternative: return the text if it is truthy, otherwise `d`. -/
def pyOrText (a : Option String) (d : String) : String :=
  match a with
  | none => d
  | some s => if s = "" then d else s

/-- Lexicographic comparison of character lists by code point: the order
Python uses to compare `str` values. -/
def charListLt : List Char → List Char → Bool
  | [], [] => false
  | [], _ :: _ => true
  | _ :: _, [] => false
  | a :: as, b :: bs =>
    if a < b then true
    else if b < a then false
    else charListLt as bs

/-- Model of Python `s < t` on strings. -/
def strLtB (a b : String) : Bool := charListLt a.data b.data

/-- Binary maximum in Python string order; folding it models pandas
`max` over a column of strings. -/
def dmax (a b : String) : String := if strLtB a b then b else a

/-! ### Provider items and the record parser (`parse_xml_to_df`) -/

/-- One provider `<item>` element, seen through `ET.findtext`: each field is
the text of the named child tag, or `none` when the tag is absent. -/
structure Item where
  umdNm : Option String
  aptDong : Option String
  aptNm : Option String
  dealAmount : Option String
  dealYear : Option String
  dealMonth : Option String
  dealDay : Option String
  excluUseAr : Option String
  floorTxt : Option String
deriving DecidableEq

/-- One row of the raw-transactions DataFrame, with the Korean column names
romanized: `gu` = 자치구 (district), `dong` = 법정동 (legal sub-district),
`apt` = 아파트 (building name), `dealAmount` = 거래금액 (price),
`year`/`month`/`day` = 년/월/일 (kept as the raw tag text, `none` = NaN),
`area` = 전용면적 (floor area), `floorLv` = 층 (floor level),
`dealDate` = 거래일자 (composite date string). -/
structure TransactionRecord where
  gu : String
  dong : String
  apt : String
  dealAmount : Int
  year : Option String
  month : Option String
  day : Option String
  area : ℚ
  floorLv : String
  dealDate : String
deriving DecidableEq

/-- The raw payload handed to `parse_xml_to_df`: falsy text (`None` or `""`),
text that `ET.fromstring` rejects, or a parsed document with its list of
`<item>` elements (possibly empty). -/
inductive Payload where
  | empty
  | malformed
  | doc (items : List Item)
deriving DecidableEq

/-- One iteration of the item loop in `parse_xml_to_df` (lines 63-79 of
apt_rank.py).  `int(...)`/`float(...)` can raise, in which case the bare
`except: continue` skips the item; this is the `none` result.  All other
row fields are total. -/
def parseItem (districtName : String) (it : Item) : Option TransactionRecord :=
  match
    (if truthy it.dealAmount then pyInt? (removeCommas (pyStrip (it.dealAmount.getD ""))) else some 0),
    (if truthy it.excluUseAr then pyFloat? (it.excluUseAr.getD "") else some 0) with
  | some amt, some ar =>
    some
      { gu := districtName
        dong := pyStrip (pyOrText it.umdNm (pyOrText it.aptDong ""))
        apt := pyStrip (pyOrText it.aptNm "")
        dealAmount := amt
        year := it.dealYear
        month := it.dealMonth
        day := it.dealDay
        area := ar
        floorLv := pyOrText it.floorTxt "0"
        dealDate :=
          if truthy it.dealYear && truthy it.dealMonth && truthy it.dealDay then
            (it.dealYear.getD "") ++ "-" ++ zfill2 (it.dealMonth.getD "") ++ "-" ++
              zfill2 (it.dealDay.getD "")
          else "2000-01-01" }
  | _, _ => none

/-- `parse_xml_to_df(xml_data, district_name)`: an empty or unparsable payload
yields an empty frame; otherwise each item is parsed independently and
failing items are skipped. -/
def parse_xml_to_df (xml : Payload) (districtName : String) : List TransactionRecord :=
  match xml with
  | .empty => []
  | .malformed => []
  | .doc items =>
    if items = [] then [] else items.filterMap (parseItem districtName)

/-- An item the row loop accepts: its price text (when truthy) parses as an
integer after comma removal, and its floor-area text (when truthy) parses as
a decimal.  These are the only two fallible conversions in the loop. -/
def wellFormedItem (it : Item) : Bool :=
  (if truthy it.dealAmount then (pyInt? (removeCommas (pyStrip (it.dealAmount.getD "")))).isSome else true)
    && (if truthy it.excluUseAr then (pyFloat? (it.excluUseAr.getD "")).isSome else true)

/-! ### Price tiering and aggregation (`get_price_tier`, `analyze_data`) -/

/-- `get_price_tier(price)`: the price-tier label, a step function of the
bucket's mean price (the labels read "under 1.0B", "1.0B-1.5B", "1.5B-2.0B",
"over 2.0B" won). -/
def get_price_tier (price : ℚ) : String :=
  if price < 100000 then "10억 미만"
  else if price < 150000 then "10억~15억"
  else if price < 200000 then "15억~20억"
  else "20억 이상"

/-- The groupby key of `analyze_data`: (자치구, 법정동, 아파트, 년, 전용면적).
pandas `groupby` drops rows whose key contains NaN, so a key only exists for
rows whose raw `year` text is present; the key stores that text. -/
structure GroupKey where
  gu : String
  dong : String
  apt : String
  year : String
  area : ℚ
deriving DecidableEq

/-- The groupby key of a row, or `none` when the row's `year` is NaN and the
row is dropped by `groupby`. -/
def keyOf (r : TransactionRecord) : Option GroupKey :=
  r.year.map (fun y => { gu := r.gu, dong := r.dong, apt := r.apt, year := y, area := r.area })

/-- The rows of one groupby bucket, in frame order. -/
def bucketOf (df : List TransactionRecord) (k : GroupKey) : List TransactionRecord :=
  df.filter (fun r => keyOf r = some k)

/-- The three aggregates `analyze_data` computes for one bucket:
거래건수 = count, 평균거래금액 = mean of 거래금액, 최근거래일 = max of 거래일자
(string maximum in Python order).  `none` when the bucket has no rows, in
which case `groupby` materializes no such group. -/
def groupAgg (df : List TransactionRecord) (k : GroupKey) : Option (ℕ × ℚ × String) :=
  let g := bucketOf df k
  if g = [] then none
  else
    some (g.length, ((g.map (fun r => (r.dealAmount : ℚ))).sum) / (g.length : ℚ),
      (g.map (fun r => r.dealDate)).foldr dmax "")

/-- One row of the ranking DataFrame: the groupby key columns plus
거래건수 (`count`), 평균거래금액 (`meanPrice`), 최근거래일 (`latestDate`) and the
가격대 label (`priceTier`) added by `analyze_data`. -/
structure RankingRecord where
  key : GroupKey
  count : ℕ
  meanPrice : ℚ
  latestDate : String
  priceTier : String
deriving DecidableEq

/-- Build the ranking row of one bucket (the `agg` + `apply(get_price_tier)`
steps of `analyze_data`). -/
def mkBucket (df : List TransactionRecord) (k : GroupKey) : RankingRecord :=
  let g := bucketOf df k
  let mean := ((g.map (fun r => (r.dealAmount : ℚ))).sum) / (g.length : ℚ)
  { key := k
    count := g.length
    meanPrice := mean
    latestDate := (g.map (fun r => r.dealDate)).foldr dmax ""
    priceTier := get_price_tier mean }

/-- The distinct groupby keys of a frame, first occurrence first.  (pandas
sorts groups by key; the relative order of distinct keys is irrelevant to
every property proved here, and the final output order is re-sorted by count
anyway.) -/
def keysOf (df : List TransactionRecord) : List GroupKey :=
  (df.filterMap keyOf).foldl (fun acc k => if k ∈ acc then acc else acc ++ [k]) []

/-- Stable insertion into a count-descending list: `r` goes in front of the
first row with a strictly smaller count. -/
def insertByCount (r : RankingRecord) : List RankingRecord → List RankingRecord
  | [] => [r]
  | x :: xs => if x.count < r.count then r :: x :: xs else x :: insertByCount r xs

/-- `sort_values(by="거래건수", ascending=False)`.  (pandas' default quicksort
leaves the order of tied counts implementation-defined; this embedding fixes
one stable order, and no property proved here depends on tie order.) -/
def sortByCountDesc (l : List RankingRecord) : List RankingRecord :=
  l.foldr insertByCount []

/-- `analyze_data(df)`: empty in, empty out; otherwise group, aggregate,
sort by count descending and attach the price-tier label. -/
def analyze_data (df : List TransactionRecord) : List RankingRecord :=
  if df = [] then []
  else sortByCountDesc ((keysOf df).map (fun k => mkBucket df k))

/-! ### Task planning inside `collect_and_save_data` -/

/-- The 25 Seoul district (code, name) pairs, in the insertion order of the
`SEOUL_DISTRICTS` dict (Python dicts preserve insertion order). -/
def SEOUL_DISTRICTS : List (String × String) :=
  [("11110", "종로구"), ("11140", "중구"), ("11170", "용산구"), ("11200", "성동구"),
   ("11215", "광진구"), ("11230", "동대문구"), ("11260", "중랑구"), ("11290", "성북구"),
   ("11305", "강북구"), ("11320", "도봉구"), ("11350", "노원구"), ("11380", "은평구"),
   ("11410", "서대문구"), ("11440", "마포구"), ("11470", "양천구"), ("11500", "강서구"),
   ("11530", "구로구"), ("11545", "금천구"), ("11560", "영등포구"), ("11590", "동작구"),
   ("11620", "관악구"), ("11650", "서초구"), ("11680", "강남구"), ("11710", "송파구"),
   ("11740", "강동구")]

/-- A calendar date as `datetime.date` stores it. -/
structure Date where
  year : ℕ
  month : ℕ
  day : ℕ
deriving DecidableEq

/-- Gregorian leap-year rule, as `dateutil`/`datetime` apply it. -/
def isLeap (y : ℕ) : Bool := y % 4 = 0 && (y % 100 ≠ 0 || y % 400 = 0)

/-- Days in a month of the Gregorian calendar. -/
def daysInMonth (y m : ℕ) : ℕ :=
  if m = 2 then (if isLeap y then 29 else 28)
  else if m = 4 ∨ m = 6 ∨ m = 9 ∨ m = 11 then 30
  else 31

/-- A date `datetime.date` would accept. -/
def ValidDate (d : Date) : Prop :=
  1 ≤ d.month ∧ d.month ≤ 12 ∧ 1 ≤ d.day ∧ d.day ≤ daysInMonth d.year d.month

instance (d : Date) : Decidable (ValidDate d) := by
  unfold ValidDate; infer_instance

/-- Absolute month number of a date; the month-granularity timeline. -/
def monthIdx (d : Date) : ℕ := 12 * d.year + (d.month - 1)

/-- `curr + relativedelta(months=1)`: advance one month, clamping the day to
the new month's length. -/
def addMonth (d : Date) : Date :=
  let y := if d.month = 12 then d.year + 1 else d.year
  let m := if d.month = 12 then 1 else d.month + 1
  { year := y, month := m, day := min d.day (daysInMonth y m) }

/-- `end_date - relativedelta(years=3)`: same month three years earlier, with
the day clamped (Feb 29 becomes Feb 28 on a non-leap year). -/
def subYears3 (d : Date) : Date :=
  { year := d.year - 3, month := d.month,
    day := min d.day (daysInMonth (d.year - 3) d.month) }

/-- Python `date` comparison: lexicographic on (year, month, day). -/
def dateLe (a b : Date) : Bool :=
  a.year < b.year ||
    (a.year = b.year &&
      (a.month < b.month || (a.month = b.month && a.day ≤ b.day)))

/-- `curr.strftime("%Y%m")`: zero-padded year and month, concatenated. -/
def zpad (width n : ℕ) : String :=
  let s := toString n
  if s.length < width then String.mk (List.replicate (width - s.length) '0' ++ s.data) else s

/-- The `%Y%m` token of a date. -/
def strftimeYm (d : Date) : String := zpad 4 d.year ++ zpad 2 d.month

/-- The `%Y%m` token of an absolute month number. -/
def ymToken (i : ℕ) : String := zpad 4 (i / 12) ++ zpad 2 (i % 12 + 1)

/-- The `while curr <= end_date` month loop of `collect_and_save_data`.  The
source loop has no bound; the fuel argument only makes the recursion
structural and is chosen large enough (the loop runs 37 times). -/
def monthTokens : ℕ → Date → Date → List String
  | 0, _, _ => []
  | fuel + 1, curr, fin =>
    if dateLe curr fin then strftimeYm curr :: monthTokens fuel (addMonth curr) fin
    else []

/-- The `months` list built for a given `today = datetime.date.today()`. -/
def monthsOf (today : Date) : List String :=
  monthTokens 50 (subYears3 today) today

/-- The `tasks` list: the two nested `for` loops over districts and months. -/
def collect_tasks (today : Date) : List (String × String × String) :=
  SEOUL_DISTRICTS.flatMap (fun cn => (monthsOf today).map (fun m => (cn.1, cn.2, m)))

/-! ### The collection pipeline (`collect_and_save_data`) -/

/-- The two CSV artifacts on disk; `none` = file absent. -/
structure DiskState where
  raw : Option (List TransactionRecord)
  ranking : Option (List RankingRecord)
deriving DecidableEq

/-- A successful `to_csv` call, with the content it wrote. -/
inductive WriteEvent where
  | rawWrite (content : List TransactionRecord)
  | rankingWrite (content : List RankingRecord)
deriving DecidableEq

/-- What one run of `collect_and_save_data` produced: the final disk state,
the successful writes in program order, and the `(ok, message)` pair the
function returns. -/
structure RunOutcome where
  disk : DiskState
  events : List WriteEvent
  result : Bool × String
deriving DecidableEq

/-- The run-level error message for an empty collection
("data collection failed: no API response or network error"). -/
def collectFailMsg : String := "데이터 수집 실패: API 응답이 없거나 네트워크 오류입니다."

/-- The success message: "collection finished: N trade records analyzed". -/
def successMsg (n : ℕ) : String := "수집 완료: 총 " ++ toString n ++ "건의 거래 데이터 분석됨."

/-- The `except Exception as e` message of the persistence block. -/
def processErrMsg (e : String) : String := "데이터 처리 중 오류: " ++ e

/-- `collect_and_save_data`, from the fan-in point on.  `results` is the list
of completed (district name, payload) pairs in completion order; fetch
failures arrive as `Payload.empty` (`fetch_data` returns `None`, and the
`if xml_txt:` guard then skips parsing, which is equivalent to parsing an
empty payload).  `rawFail`/`rankingFail` inject an exception (with its
message) into the corresponding `to_csv` call; a failed write leaves the
artifact untouched. -/
def collect_and_save_data (results : List (String × Payload))
    (rawFail rankingFail : Option String) (disk : DiskState) : RunOutcome :=
  let all_dfs := (results.map (fun np => parse_xml_to_df np.2 np.1)).filter (fun df => df ≠ [])
  if all_dfs = [] then
    { disk := disk, events := [], result := (false, collectFailMsg) }
  else
    let full_df := all_dfs.flatten
    match rawFail with
    | some e => { disk := disk, events := [], result := (false, processErrMsg e) }
    | none =>
      let disk1 : DiskState := { disk with raw := some full_df }
      let analyzed := analyze_data full_df
      match rankingFail with
      | some e =>
        { disk := disk1, events := [WriteEvent.rawWrite full_df],
          result := (false, processErrMsg e) }
      | none =>
        { disk := { disk1 with ranking := some analyzed },
          events := [WriteEvent.rawWrite full_df, WriteEvent.rankingWrite analyzed],
          result := (true, successMsg full_df.length) }

/-- Total number of raw records produced across all tasks. -/
def totalRecords (results : List (String × Payload)) : ℕ :=
  ((results.map (fun np => parse_xml_to_df np.2 np.1)).flatten).length

/-! ### Cache validation (`validate_data_file`) -/

/-- The ranking CSV as `validate_data_file` can encounter it: absent,
unreadable by `pd.read_csv`, or a table with its column names and row count. -/
inductive CsvArtifact where
  | absent
  | malformed
  | table (columns : List String) (rows : ℕ)
deriving DecidableEq

/-- `validate_data_file()`: the file must exist, read successfully, be
non-empty and expose the 년 (year) and 자치구 (district) columns.  A pandas
frame is `empty` when it has no rows or no columns. -/
def validate_data_file (f : CsvArtifact) : Bool :=
  match f with
  | .absent => false
  | .malformed => false
  | .table cols rows =>
    if (rows = 0 ∨ cols = []) ∨ "년" ∉ cols ∨ "자치구" ∉ cols then false else true

/-! ### The web layer: `update_data` and `get_apt_history` -/

/-- Process state observable by the `/update` route: how many background
collection threads are currently executing.  The route inspects no flag and
holds no lock, so this is the only state it touches (by starting one more
thread). -/
structure ServerState where
  activeRuns : ℕ
deriving DecidableEq

/-- The JSON body `update_data` returns. -/
structure TriggerResponse where
  status : String
  message : String
deriving DecidableEq

/-- The acknowledgement message of `/update`. -/
def updateAckMsg : String :=
  "데이터 수집 요청이 서버에 전달되었습니다.\n작업은 백그라운드에서 진행되며 약 3~5분 소요됩니다.\n잠시 후 새로고침하여 확인해주세요."

/-- `update_data()` (the `/update` route): unconditionally spawn one more
daemon thread running `collect_and_save_data` and return a success JSON.
There is no running-state check anywhere in the route. -/
def update_data (s : ServerState) : ServerState × TriggerResponse :=
  ({ activeRuns := s.activeRuns + 1 }, { status := "success", message := updateAckMsg })

/-- The raw-trades CSV as `get_apt_history` can encounter it. -/
inductive RawFile where
  | absent
  | malformed (e : String)
  | table (records : List TransactionRecord)
deriving DecidableEq

/-- The JSON response of `/api/history`. -/
inductive HistoryResult where
  | ok (data : List TransactionRecord)
  | err (message : String) (code : ℕ)
deriving DecidableEq

/-- The row mask `(df['아파트'] == apt_name) & (df['법정동'] == dong)`.
A pandas comparison with `None` (an absent query parameter) is elementwise
false, so an absent parameter matches no row. -/
def rowMatch (aptName dong : Option String) (r : TransactionRecord) : Bool :=
  (match aptName with
   | none => false
   | some a => r.apt = a)
    && (match dong with
        | none => false
        | some d => r.dong = d)

/-- `filtered.fillna(0)`: the only nullable columns of the raw frame are the
raw 년/월/일 texts; pandas writes a literal `0` into them (modelled as the
text "0"). -/
def fillna0 (r : TransactionRecord) : TransactionRecord :=
  { r with year := some (r.year.getD "0"), month := some (r.month.getD "0"),
           day := some (r.day.getD "0") }

/-- Stable insertion into a date-descending list. -/
def insertByDate (r : TransactionRecord) : List TransactionRecord → List TransactionRecord
  | [] => [r]
  | x :: xs => if strLtB x.dealDate r.dealDate then r :: x :: xs else x :: insertByDate r xs

/-- `sort_values(by='거래일자', ascending=False)` on the filtered rows. -/
def sortByDateDesc (l : List TransactionRecord) : List TransactionRecord :=
  l.foldr insertByDate []

/-- `get_apt_history()` (the `/api/history` route): 404 when the raw CSV is
absent, 500 when reading raises, otherwise filter by the two query
parameters, fill NaNs, sort by composite date descending and answer 200. -/
def get_apt_history (raw : RawFile) (aptName dong : Option String) : HistoryResult :=
  match raw with
  | .absent => .err "상세 데이터 파일이 없습니다. 데이터를 업데이트해주세요." 404
  | .malformed e => .err e 500
  | .table df =>
    .ok (sortByDateDesc ((df.filter (rowMatch aptName dong)).map fillna0))

/-! ### Order lemmas for the Python string maximum -/

theorem charListLt_asymm : ∀ a b : List Char, charListLt a b = true → charListLt b a = false := by
  intro a
  induction a with
  | nil => intro b _; cases b <;> simp [charListLt]
  | cons x xs ih =>
    intro b hab
    cases b with
    | nil => simp [charListLt] at hab
    | cons y ys =>
      simp only [charListLt] at hab ⊢
      rcases lt_trichotomy x y with h | h | h
      · simp [h, not_lt_of_gt h]
      · subst h
        simp only [lt_irrefl, if_false] at hab ⊢
        exact ih ys hab
      · simp [h, not_lt_of_gt h] at hab

theorem charListLt_total : ∀ a b : List Char, charListLt a b = false → charListLt b a = false → a = b := by
  intro a
  induction a with
  | nil =>
    intro b hab _
    cases b with
    | nil => rfl
    | cons y ys => simp [charListLt] at hab
  | cons x xs ih =>
    intro b hab hba
    cases b with
    | nil => simp [charListLt] at hba
    | cons y ys =>
      simp only [charListLt] at hab hba
      rcases lt_trichotomy x y with h | h | h
      · simp [h] at hab
      · subst h
        simp only [lt_irrefl, if_false] at hab hba
        rw [ih ys hab hba]
      · simp [h, not_lt_of_gt h] at hba

theorem charListLt_trans : ∀ a b c : List Char,
    charListLt a b = true → charListLt b c = true → charListLt a c = true := by
  intro a
  induction a with
  | nil =>
    intro b c hab hbc
    cases b with
    | nil => simp [charListLt] at hab
    | cons y ys =>
      cases c with
      | nil => simp [charListLt] at hbc
      | cons z zs => simp [charListLt]
  | cons x xs ih =>
    intro b c hab hbc
    cases b with
    | nil => simp [charListLt] at hab
    | cons y ys =>
      cases c with
      | nil => simp [charListLt] at hbc
      | cons z zs =>
        simp only [charListLt] at hab hbc ⊢
        rcases lt_trichotomy x y with hxy | hxy | hxy
        · rcases lt_trichotomy y z with hyz | hyz | hyz
          · have hxz := lt_trans hxy hyz
            simp [hxz]
          · subst hyz; simp [hxy]
          · simp [hyz, not_lt_of_gt hyz] at hbc
        · subst hxy
          rcases lt_trichotomy x z with hxz | hxz | hxz
          · simp [hxz]
          · subst hxz
            simp only [lt_irrefl, if_false] at hab hbc ⊢
            exact ih _ _ hab hbc
          · simp [hxz, not_lt_of_gt hxz] at hbc
        · simp [hxy, not_lt_of_gt hxy] at hab

theorem strLtB_asymm {a b : String} (h : strLtB a b = true) : strLtB b a = false :=
  charListLt_asymm _ _ h

theorem strLtB_total {a b : String} (hab : strLtB a b = false) (hba : strLtB b a = false) :
    a = b := by
  have h := charListLt_total a.data b.data hab hba
  cases a; cases b
  exact congrArg String.mk h

theorem strLtB_trans {a b c : String} (hab : strLtB a b = true) (hbc : strLtB b c = true) :
    strLtB a c = true :=
  charListLt_trans _ _ _ hab hbc

/-- When `a` is not below `b` in Python string order, either `b` is strictly
below `a` or the two strings are equal. -/
theorem strLtB_cases {a b : String} (hab : strLtB a b = false) :
    strLtB b a = true ∨ a = b := by
  cases hba : strLtB b a with
  | true => exact Or.inl rfl
  | false => exact Or.inr (strLtB_total hab hba)

theorem dmax_comm (a b : String) : dmax a b = dmax b a := by
  unfold dmax
  cases hab : strLtB a b with
  | true => simp [strLtB_asymm hab]
  | false =>
    cases hba : strLtB b a with
    | true => simp
    | false => simp [strLtB_total hab hba]

theorem dmax_assoc (a b c : String) : dmax (dmax a b) c = dmax a (dmax b c) := by
  unfold dmax
  cases hab : strLtB a b with
  | true =>
    cases hbc : strLtB b c with
    | true => simp [hab, hbc, strLtB_trans hab hbc]
    | false => simp [hab, hbc]
  | false =>
    cases hbc : strLtB b c with
    | true => simp [hab, hbc]
    | false =>
      have hac : strLtB a c = false := by
        rcases strLtB_cases hab with hba | rfl
        · rcases strLtB_cases hbc with hcb | rfl
          · exact strLtB_asymm (strLtB_trans hcb hba)
          · exact strLtB_asymm hba
        · exact hbc
      simp [hab, hbc, hac]

instance : Std.Commutative dmax := ⟨dmax_comm⟩

instance : Std.Associative dmax := ⟨dmax_assoc⟩

theorem length_filterMap_eq {α β : Type} (l : List α) (f : α → Option β) :
    (l.filterMap f).length = (l.filter (fun a => (f a).isSome)).length := by
  induction l with
  | nil => rfl
  | cons x xs ih => cases hx : f x <;> simp [List.filterMap_cons, List.filter_cons, hx, ih]

theorem parseItem_isSome (n : String) (it : Item) :
    (parseItem n it).isSome = wellFormedItem it := by
  unfold parseItem wellFormedItem
  cases hA : (if truthy it.dealAmount then pyInt? (removeCommas (pyStrip (it.dealAmount.getD ""))) else some 0) with
  | none =>
    cases hT : truthy it.dealAmount <;> simp [hT] at hA ⊢
    simp [hA]
  | some amt =>
    cases hF : (if truthy it.excluUseAr then pyFloat? (it.excluUseAr.getD "") else some 0) with
    | none =>
      cases hT : truthy it.excluUseAr <;> simp [hT] at hF ⊢
      · cases hT2 : truthy it.dealAmount <;> simp [hT2] at hA ⊢ <;> simp [hA, hF]
    | some ar =>
      cases hT1 : truthy it.dealAmount <;> cases hT2 : truthy it.excluUseAr <;>
          simp [hT1, hT2] at hA hF ⊢ <;> simp [hA, hF]

/-! ### C6: the parser never fails and skips exactly the malformed items -/

/-- C6: parsing never raises (it is a total function into a record list); a
payload whose document holds N well-formed items and M malformed items yields
exactly N records, a parse failure on one item skipping only that item; and
an empty or unparsable payload yields the empty sequence. -/
theorem parse_skips_only_malformed (items : List Item) (n : String) :
    (parse_xml_to_df (Payload.doc items) n).length = (items.filter wellFormedItem).length ∧
    parse_xml_to_df Payload.empty n = [] ∧
    parse_xml_to_df Payload.malformed n = [] := by
  refine ⟨?_, rfl, rfl⟩
  unfold parse_xml_to_df
  by_cases hi : items = []
  · subst hi; simp
  · simp only [hi, if_false]
    rw [length_filterMap_eq]
    congr 1
    exact List.filter_congr (fun it _ => parseItem_isSome n it)

/-! ### C3: defaults of missing item fields -/

/-- C3 (amended): in every record the parser produces, a missing price text
defaults the price to 0, a missing floor-area text defaults the area to 0, a
missing building name defaults to the empty string, a missing floor defaults
to the string "0"; the legal sub-district defaults to the empty string only
when both its source tags (umdNm, and the aptDong fallback) are missing — when
umdNm is missing but a non-empty aptDong is present, the stripped aptDong text
is used instead of the empty string. -/
theorem parse_missing_field_defaults (n : String) (it : Item) (r : TransactionRecord)
    (h : parseItem n it = some r) :
    (truthy it.dealAmount = false → r.dealAmount = 0) ∧
    (truthy it.excluUseAr = false → r.area = 0) ∧
    (it.aptNm = none → r.apt = "") ∧
    (it.floorTxt = none → r.floorLv = "0") ∧
    (it.umdNm = none → it.aptDong = none → r.dong = "") ∧
    (it.umdNm = none → ∀ s, it.aptDong = some s → s ≠ "" → r.dong = pyStrip s) := by
  unfold parseItem at h
  cases hA : (if truthy it.dealAmount then pyInt? (removeCommas (pyStrip (it.dealAmount.getD ""))) else some 0) with
  | none => rw [hA] at h; cases h
  | some amt =>
    cases hF : (if truthy it.excluUseAr then pyFloat? (it.excluUseAr.getD "") else some 0) with
    | none => rw [hA, hF] at h; cases h
    | some ar =>
      rw [hA, hF] at h
      simp only [Option.some.injEq] at h
      subst h
      refine ⟨?_, ?_, ?_, ?_, ?_, ?_⟩
      · intro hT; rw [hT] at hA; simp at hA; simp [hA]
      · intro hT; rw [hT] at hF; simp at hF; simp [hF]
      · intro hN; simp [hN, pyOrText, pyStrip, trimChars, isWs]
      · intro hN; simp [hN, pyOrText]
      · intro hU hD; simp [hU, hD, pyOrText, pyStrip, trimChars, isWs]
      · intro hU s hD hs; simp [hU, hD, pyOrText, hs]

/-- Closed witness for C3: the all-absent item parses to the all-defaults
record, and the defaults are as claimed. -/
def blankItem : Item :=
  { umdNm := none, aptDong := none, aptNm := none, dealAmount := none,
    dealYear := none, dealMonth := none, dealDay := none, excluUseAr := none,
    floorTxt := none }

/-- The record `parseItem` produces for `blankItem`. -/
def blankRec : TransactionRecord :=
  { gu := "중구", dong := "", apt := "", dealAmount := 0, year := none,
    month := none, day := none, area := 0, floorLv := "0",
    dealDate := "2000-01-01" }

/-- Witness for C3: the defaults theorem applied to the all-absent item. -/
theorem parse_missing_field_defaults_witness :
    (truthy blankItem.dealAmount = false → blankRec.dealAmount = 0) ∧
    (truthy blankItem.excluUseAr = false → blankRec.area = 0) ∧
    (blankItem.aptNm = none → blankRec.apt = "") ∧
    (blankItem.floorTxt = none → blankRec.floorLv = "0") ∧
    (blankItem.umdNm = none → blankItem.aptDong = none → blankRec.dong = "") ∧
    (blankItem.umdNm = none → ∀ s, blankItem.aptDong = some s → s ≠ "" → blankRec.dong = pyStrip s) :=
  parse_missing_field_defaults "중구" blankItem blankRec (by decide)

/-- An item whose legal sub-district tag (umdNm) is missing while the aptDong
tag is present. -/
def aptDongItem : Item :=
  { umdNm := none, aptDong := some "101동", aptNm := some "한강타워",
    dealAmount := some "150,000", dealYear := some "2024", dealMonth := some "1",
    dealDay := some "5", excluUseAr := none, floorTxt := some "3" }

/-- C3 counterexample: for an item with a missing legal sub-district tag the
parser does not default the sub-district to the empty string — line 66 of
apt_rank.py falls back to the aptDong text first, so the record carries
"101동". -/
theorem parse_missing_subdistrict_cex :
    aptDongItem.umdNm = none ∧
    (parseItem "용산구" aptDongItem).map TransactionRecord.dong = some "101동" ∧
    ("101동" : String) ≠ "" := by decide

/-! ### C1: the /update trigger -/

/-- C1 (amended): `update_data` (the `/update` route) never rejects: every
call, regardless of how many collection runs are already executing,
unconditionally starts one more background pipeline run and returns the fixed
success acknowledgement.  Two calls issued while a run is in progress
therefore yield two more concurrent pipeline executions, not a rejection. -/
theorem update_data_always_accepts (s : ServerState) :
    update_data s =
      ({ activeRuns := s.activeRuns + 1 },
        { status := "success", message := updateAckMsg }) := rfl

/-- C1 counterexample: with one collection run already in progress, a
`trigger()` call does not return a rejection (its JSON status is "success")
and it does start a second concurrent pipeline execution. -/
theorem update_data_single_flight_cex :
    (update_data { activeRuns := 1 }).2.status = "success" ∧
    (update_data { activeRuns := 1 }).1.activeRuns = 2 := by decide

/-! ### C8: aggregation is invariant under input permutation -/

/-- C8: for a fixed multiset of transaction records, every aggregation bucket
(count = number of records in the bucket, mean price = arithmetic mean of the
price amounts, most-recent date = maximum of the composite date strings in
Python string order) is identical no matter how the input rows are ordered:
permuting the input changes no bucket and the contents of none. -/
theorem groupAgg_perm_invariant (l₁ l₂ : List TransactionRecord)
    (h : l₁.Perm l₂) (k : GroupKey) : groupAgg l₁ k = groupAgg l₂ k := by
  have hp : (bucketOf l₁ k).Perm (bucketOf l₂ k) := h.filter _
  have hlen : (bucketOf l₁ k).length = (bucketOf l₂ k).length := hp.length_eq
  have hsum : ((bucketOf l₁ k).map (fun r => (r.dealAmount : ℚ))).sum
      = ((bucketOf l₂ k).map (fun r => (r.dealAmount : ℚ))).sum :=
    (hp.map _).sum_eq
  have hmax : ((bucketOf l₁ k).map (fun r => r.dealDate)).foldr dmax ""
      = ((bucketOf l₂ k).map (fun r => r.dealDate)).foldr dmax "" :=
    (hp.map _).foldr_eq ""
  unfold groupAgg
  by_cases he : bucketOf l₁ k = []
  · have he2 : bucketOf l₂ k = [] := by
      have hl := hp.length_eq
      rw [he] at hl
      exact List.length_eq_zero.mp hl.symm
    rw [he, he2]
  · have he2 : bucketOf l₂ k ≠ [] := by
      intro h0
      apply he
      have hl := hp.length_eq
      rw [h0] at hl
      exact List.length_eq_zero.mp hl
    rw [if_neg he, if_neg he2, hlen, hsum, hmax]

/-- A bucket row used by the C8 witness. -/
def permRecA : TransactionRecord :=
  { gu := "강남구", dong := "역삼동", apt := "가", dealAmount := 100,
    year := some "2024", month := none, day := none, area := 0, floorLv := "0",
    dealDate := "2024-01-05" }

/-- A second row of the same bucket, used by the C8 witness. -/
def permRecB : TransactionRecord :=
  { gu := "강남구", dong := "역삼동", apt := "가", dealAmount := 200,
    year := some "2024", month := none, day := none, area := 0, floorLv := "0",
    dealDate := "2024-02-03" }

/-- The bucket key of `permRecA`/`permRecB`. -/
def permKey : GroupKey :=
  { gu := "강남구", dong := "역삼동", apt := "가", year := "2024", area := 0 }

/-- Witness for C8: two concrete orderings of the same two rows give the same
bucket aggregate. -/
theorem groupAgg_perm_invariant_witness :
    ([permRecA, permRecB].Perm [permRecB, permRecA]) ∧
    groupAgg [permRecA, permRecB] permKey = groupAgg [permRecB, permRecA] permKey :=
  ⟨List.Perm.swap permRecB permRecA [],
    groupAgg_perm_invariant _ _ (List.Perm.swap permRecB permRecA []) permKey⟩

/-! ### C9: cache validity -/

/-- C9: `validate_data_file` answers `true` exactly when the ranking artifact
is a readable table that is non-empty (some row and some column) and exposes
both the 년 (year) and 자치구 (district) columns; it answers `false` when the
artifact is absent, unreadable, empty, or missing either column. -/
theorem validate_data_file_iff (f : CsvArtifact) :
    validate_data_file f = true ↔
      ∃ cols rows, f = CsvArtifact.table cols rows ∧ ¬(rows = 0 ∨ cols = []) ∧
        "년" ∈ cols ∧ "자치구" ∈ cols := by
  cases f with
  | absent => simp [validate_data_file]
  | malformed => simp [validate_data_file]
  | table cols rows =>
    constructor
    · intro hv
      simp only [validate_data_file] at hv
      split_ifs at hv with hcond
      push_neg at hcond
      exact ⟨cols, rows, rfl, by tauto, hcond.2.1, hcond.2.2⟩
    · rintro ⟨c, r, heq, hne, h1, h2⟩
      obtain ⟨rfl, rfl⟩ : cols = c ∧ rows = r := by
        injection heq with ha hb
        exact ⟨ha, hb⟩
      have hcond : ¬((rows = 0 ∨ cols = []) ∨ "년" ∉ cols ∨ "자치구" ∉ cols) := by
        rintro (hx | hx | hx)
        · exact hne hx
        · exact hx h1
        · exact hx h2
      simp only [validate_data_file, if_neg hcond]

/-- Witness for C9: a present, non-empty ranking table with both key columns
is valid, via the characterization theorem. -/
theorem validate_data_file_iff_witness :
    validate_data_file (CsvArtifact.table ["자치구", "법정동", "아파트", "년"] 10) = true :=
  (validate_data_file_iff (CsvArtifact.table ["자치구", "법정동", "아파트", "년"] 10)).mpr
    ⟨["자치구", "법정동", "아파트", "년"], 10, rfl, by decide, by decide, by decide⟩

/-! ### C10: history lookup on present raw data -/

/-- C10: when the raw artifact is present and well-formed, a history lookup
whose building-name or sub-district parameter is absent, or which matches no
record, answers a success result carrying the empty record list — never an
error result. -/
theorem get_apt_history_empty_ok (df : List TransactionRecord)
    (aptName dong : Option String)
    (h : aptName = none ∨ dong = none ∨ ∀ r ∈ df, rowMatch aptName dong r = false) :
    get_apt_history (RawFile.table df) aptName dong = HistoryResult.ok [] := by
  have hfilter : df.filter (rowMatch aptName dong) = [] := by
    rcases h with rfl | rfl | hall
    · simp [rowMatch]
    · have : ∀ r ∈ df, rowMatch aptName none r = false := by
        intro r _
        unfold rowMatch
        cases aptName <;> simp
      simp [List.filter_eq_nil_iff.mpr (by simpa using this)]
    · simp [List.filter_eq_nil_iff.mpr (by simpa using hall)]
  simp only [get_apt_history, hfilter]
  rfl

/-- A raw row used by the C10 witness. -/
def histRec : TransactionRecord :=
  { gu := "강남구", dong := "역삼동", apt := "가", dealAmount := 100,
    year := some "2024", month := none, day := none, area := 0, floorLv := "0",
    dealDate := "2024-01-05" }

/-- Witness for C10: an absent building-name parameter on a present one-row
raw artifact yields a success result with no records. -/
theorem get_apt_history_empty_ok_witness :
    get_apt_history (RawFile.table [histRec]) none (some "역삼동") = HistoryResult.ok [] :=
  get_apt_history_empty_ok [histRec] none (some "역삼동") (Or.inl rfl)

/-! ### C7 and C4: run results and write ordering of the pipeline -/

theorem filter_ne_nil_flatten {α : Type} [DecidableEq α] (l : List (List α)) :
    (l.filter (fun x => x ≠ [])).flatten = l.flatten := by
  induction l with
  | nil => rfl
  | cons x xs ih =>
    rw [List.filter_cons]
    by_cases hx : x = []
    · rw [if_neg (by simp [hx]), ih, List.flatten_cons, hx, List.nil_append]
    · rw [if_pos (by simp [hx]), List.flatten_cons, List.flatten_cons, ih]

theorem filter_ne_nil_eq_nil_iff {α : Type} [DecidableEq α] (l : List (List α)) :
    l.filter (fun x => x ≠ []) = [] ↔ l.flatten = [] := by
  induction l with
  | nil => simp
  | cons x xs ih =>
    rw [List.filter_cons, List.flatten_cons]
    by_cases hx : x = []
    · rw [if_neg (by simp [hx]), hx, List.nil_append]
      exact ih
    · rw [if_pos (by simp [hx])]
      constructor
      · intro h
        exact absurd h (List.cons_ne_nil _ _)
      · intro h
        exact absurd (List.append_eq_nil.mp h).1 hx

theorem processErrMsg_ne_collectFail (e : String) : processErrMsg e ≠ collectFailMsg := by
  intro hc
  have h4 := congrArg (fun s => s.data[4]?) hc
  have hdata : (processErrMsg e).data = ("데이터 처리 중 오류: ").data ++ e.data := rfl
  simp only [hdata] at h4
  rw [List.getElem?_append_left (by decide)] at h4
  exact absurd h4 (by decide)

/-- C7: the run reports the run-level "collection failed" error exactly when
zero raw records were produced across all tasks; and when records were
produced and both artifact writes succeed, it reports success with a count
equal to the number of raw records processed. -/
theorem collect_result_spec (results : List (String × Payload))
    (rawFail rankingFail : Option String) (disk : DiskState) :
    ((collect_and_save_data results rawFail rankingFail disk).result
        = (false, collectFailMsg) ↔ totalRecords results = 0) ∧
    (totalRecords results ≠ 0 → rawFail = none → rankingFail = none →
      (collect_and_save_data results rawFail rankingFail disk).result
        = (true, successMsg (totalRecords results))) := by
  constructor
  · by_cases he : (results.map (fun np => parse_xml_to_df np.2 np.1)).filter
        (fun df => df ≠ []) = []
    · have hz : totalRecords results = 0 := by
        unfold totalRecords
        rw [(filter_ne_nil_eq_nil_iff _).mp he]
        rfl
      unfold collect_and_save_data
      rw [if_pos he]
      simp [hz]
    · have hz : totalRecords results ≠ 0 := by
        unfold totalRecords
        intro h0
        exact he ((filter_ne_nil_eq_nil_iff _).mpr (List.length_eq_zero.mp h0))
      unfold collect_and_save_data
      rw [if_neg he]
      cases rawFail with
      | some e =>
        constructor
        · intro hx
          exact absurd (congrArg Prod.snd hx) (processErrMsg_ne_collectFail e)
        · intro hx
          exact absurd hx hz
      | none =>
        cases rankingFail with
        | some e =>
          constructor
          · intro hx
            exact absurd (congrArg Prod.snd hx) (processErrMsg_ne_collectFail e)
          · intro hx
            exact absurd hx hz
        | none =>
          constructor
          · intro hx
            simp at hx
          · intro hx
            exact absurd hx hz
  · intro hne hr hk
    subst hr
    subst hk
    by_cases he : (results.map (fun np => parse_xml_to_df np.2 np.1)).filter
        (fun df => df ≠ []) = []
    · exact absurd (by
        unfold totalRecords
        rw [(filter_ne_nil_eq_nil_iff _).mp he]
        rfl) hne
    · unfold collect_and_save_data
      rw [if_neg he]
      dsimp only
      unfold totalRecords
      rw [filter_ne_nil_flatten]

/-- C4 (amended): within one run, writes happen in the order RAW then
RANKING, and a RANKING write always carries the aggregation of the RAW
content written immediately before it in the same run — so a reader can never
observe a RANKING artifact newer than its paired RAW artifact.  (A run that
errors between the two writes does leave the new RAW next to the stale
RANKING; see the counterexample.) -/
theorem collect_write_order (results : List (String × Payload))
    (rawFail rankingFail : Option String) (disk : DiskState) :
    ((collect_and_save_data results rawFail rankingFail disk).events = [] ∧
      (collect_and_save_data results rawFail rankingFail disk).disk = disk) ∨
    (∃ c, (collect_and_save_data results rawFail rankingFail disk).events
          = [WriteEvent.rawWrite c] ∧
        (collect_and_save_data results rawFail rankingFail disk).disk.raw = some c ∧
        (collect_and_save_data results rawFail rankingFail disk).disk.ranking
          = disk.ranking) ∨
    (∃ c, (collect_and_save_data results rawFail rankingFail disk).events
          = [WriteEvent.rawWrite c, WriteEvent.rankingWrite (analyze_data c)] ∧
        (collect_and_save_data results rawFail rankingFail disk).disk.raw = some c ∧
        (collect_and_save_data results rawFail rankingFail disk).disk.ranking
          = some (analyze_data c)) := by
  unfold collect_and_save_data
  by_cases he : (results.map (fun np => parse_xml_to_df np.2 np.1)).filter
      (fun df => df ≠ []) = []
  · rw [if_pos he]
    exact Or.inl ⟨rfl, rfl⟩
  · rw [if_neg he]
    cases rawFail with
    | some e => exact Or.inl ⟨rfl, rfl⟩
    | none =>
      cases rankingFail with
      | some e => exact Or.inr (Or.inl ⟨_, rfl, rfl, rfl⟩)
      | none => exact Or.inr (Or.inr ⟨_, rfl, rfl, rfl⟩)

/-- A well-formed item used by the C7 witness. -/
def c7item : Item :=
  { umdNm := some "역삼동", aptDong := none, aptNm := some "가",
    dealAmount := some "20,000", dealYear := some "2024", dealMonth := some "1",
    dealDay := some "5", excluUseAr := none, floorTxt := some "3" }

/-- Completed task results used by the C7 witness: one task that produced one
record. -/
def c7results : List (String × Payload) := [("강남구", Payload.doc [c7item])]

/-- Witness for C7: one parsed record, both writes succeed, so the run
reports success with count 1. -/
theorem collect_result_spec_witness :
    totalRecords c7results ≠ 0 ∧
    (collect_and_save_data c7results none none { raw := none, ranking := none }).result
      = (true, successMsg (totalRecords c7results)) :=
  ⟨by decide,
    (collect_result_spec c7results none none { raw := none, ranking := none }).2
      (by decide) rfl rfl⟩

/-- A well-formed item used by the C4 counterexample. -/
def c4item : Item :=
  { umdNm := some "이촌동", aptDong := none, aptNm := some "나",
    dealAmount := some "30,000", dealYear := some "2023", dealMonth := some "11",
    dealDay := some "2", excluUseAr := none, floorTxt := some "7" }

/-- The record `c4item` parses to. -/
def c4rec : TransactionRecord :=
  { gu := "용산구", dong := "이촌동", apt := "나", dealAmount := 30000,
    year := some "2023", month := some "11", day := some "2", area := 0,
    floorLv := "7", dealDate := "2023-11-02" }

/-- A disk that already holds a paired (raw, ranking) artifact pair from a
previous run. -/
def c4disk : DiskState := { raw := some [], ranking := some [] }

/-- C4 counterexample: a run whose RANKING `to_csv` raises ends in an Error
yet has already replaced the RAW artifact, leaving the stale RANKING next to
a newer RAW — the artifacts are not replaced atomically on an error run. -/
theorem collect_error_pairing_cex :
    (collect_and_save_data [("용산구", Payload.doc [c4item])] none
        (some "No space left on device") c4disk).result.1 = false ∧
    (collect_and_save_data [("용산구", Payload.doc [c4item])] none
        (some "No space left on device") c4disk).disk.raw = some [c4rec] ∧
    some [c4rec] ≠ c4disk.raw ∧
    (collect_and_save_data [("용산구", Payload.doc [c4item])] none
        (some "No space left on device") c4disk).disk.ranking = c4disk.ranking := by
  decide

/-! ### C2: tiering of ranking records -/

theorem mem_insertByCount {x r : RankingRecord} {l : List RankingRecord} :
    x ∈ insertByCount r l ↔ x = r ∨ x ∈ l := by
  induction l with
  | nil => simp [insertByCount]
  | cons y ys ih =>
    unfold insertByCount
    by_cases hc : y.count < r.count
    · simp [hc, List.mem_cons]
    · simp only [hc, if_false, List.mem_cons, ih]
      tauto

theorem mem_sortByCountDesc {x : RankingRecord} {l : List RankingRecord} :
    x ∈ sortByCountDesc l ↔ x ∈ l := by
  unfold sortByCountDesc
  induction l with
  | nil => simp
  | cons y ys ih => simp [List.foldr_cons, mem_insertByCount, ih, List.mem_cons]

/-- C2 (amended): every ranking record the aggregation produces carries
exactly one tier, the price-tier label 가격대, and it is the total step
function of the bucket's mean price: `< 100000 → "10억 미만"`,
`[100000, 150000) → "10억~15억"`, `[150000, 200000) → "15억~20억"`,
`≥ 200000 → "20억 이상"`.  No area-tier code is attached to any record; the
floor area enters only the grouping key (see the counterexample). -/
theorem analyze_price_tier_only (df : List TransactionRecord) (r : RankingRecord)
    (h : r ∈ analyze_data df) :
    r.priceTier = get_price_tier r.meanPrice ∧
    (r.meanPrice < 100000 → r.priceTier = "10억 미만") ∧
    (100000 ≤ r.meanPrice ∧ r.meanPrice < 150000 → r.priceTier = "10억~15억") ∧
    (150000 ≤ r.meanPrice ∧ r.meanPrice < 200000 → r.priceTier = "15억~20억") ∧
    (200000 ≤ r.meanPrice → r.priceTier = "20억 이상") := by
  have hr : r.priceTier = get_price_tier r.meanPrice := by
    unfold analyze_data at h
    by_cases hdf : df = []
    · rw [if_pos hdf] at h
      cases h
    · rw [if_neg hdf] at h
      rw [mem_sortByCountDesc] at h
      obtain ⟨k, _, hk⟩ := List.mem_map.mp h
      rw [← hk]
      rfl
  refine ⟨hr, ?_, ?_, ?_, ?_⟩ <;> rw [hr] <;> unfold get_price_tier
  · intro h1
    rw [if_pos h1]
  · rintro ⟨h1, h2⟩
    rw [if_neg (by linarith), if_pos h2]
  · rintro ⟨h1, h2⟩
    rw [if_neg (by linarith), if_neg (by linarith), if_pos h2]
  · intro h1
    rw [if_neg (by linarith), if_neg (by linarith), if_neg (by linarith)]

/-- The single transaction row of the C2 witness bucket. -/
def tierRec : TransactionRecord :=
  { gu := "강남구", dong := "역삼동", apt := "가", dealAmount := 150000,
    year := some "2024", month := some "1", day := some "5", area := 0,
    floorLv := "0", dealDate := "2024-01-05" }

/-- The grouping key of `tierRec`. -/
def tierKey : GroupKey :=
  { gu := "강남구", dong := "역삼동", apt := "가", year := "2024", area := 0 }

/-- Witness for C2: the bucket of a concrete one-row frame is in the
aggregation output and carries the price tier of its mean price. -/
theorem analyze_price_tier_only_witness :
    (mkBucket [tierRec] tierKey) ∈ analyze_data [tierRec] ∧
    (mkBucket [tierRec] tierKey).priceTier
      = get_price_tier ((mkBucket [tierRec] tierKey).meanPrice) := by
  have h1 : analyze_data [tierRec] = [mkBucket [tierRec] tierKey] := rfl
  have hmem : (mkBucket [tierRec] tierKey) ∈ analyze_data [tierRec] := by
    rw [h1]
    exact List.mem_singleton.mpr rfl
  exact ⟨hmem, (analyze_price_tier_only [tierRec] _ hmem).1⟩

/-- One cell of a ranking CSV row: column values are text or numbers. -/
inductive Cell where
  | txt (s : String)
  | num (q : ℚ)
deriving DecidableEq

/-- The values of one ranking row in source column order: the five groupby
key columns (자치구, 법정동, 아파트, 년, 전용면적) followed by the aggregates
거래건수, 평균거래금액, 최근거래일 and the 가격대 label — the complete set of
values `analyze_data` emits for one bucket. -/
def rankingRow (r : RankingRecord) : List Cell :=
  [Cell.txt r.key.gu, Cell.txt r.key.dong, Cell.txt r.key.apt,
    Cell.txt r.key.year, Cell.num r.key.area, Cell.num (r.count : ℚ),
    Cell.num r.meanPrice, Cell.txt r.latestDate, Cell.txt r.priceTier]

/-- A transaction of a 101.9 m² unit (the area the claim's own test case
uses: band(101.9) should be 30, band(102.0) should be 40). -/
def c2Rec : TransactionRecord :=
  { gu := "강남구", dong := "역삼동", apt := "가", dealAmount := 150000,
    year := some "2024", month := some "1", day := some "5",
    area := mkRat 1019 10, floorLv := "5", dealDate := "2024-01-05" }

/-- The grouping key of `c2Rec`. -/
def c2Key : GroupKey :=
  { gu := "강남구", dong := "역삼동", apt := "가", year := "2024",
    area := mkRat 1019 10 }

/-- The full ranking record `analyze_data` produces for `[c2Rec]`. -/
def c2Bucket : RankingRecord :=
  { key := c2Key, count := 1, meanPrice := 150000,
    latestDate := "2024-01-05", priceTier := "15억~20억" }

/-- C2 counterexample: aggregating a bucket whose floor area is 101.9
produces a record that carries no area-tier code at all: the claim requires
an area-tier value of 30 on this record (101.9 lies in [70, 102)), but none
of the values the aggregation emits for the bucket equals 30 (nor the
adjacent code 40) — the only tier attached is the price-tier label. -/
theorem analyze_area_tier_cex :
    analyze_data [c2Rec] = [c2Bucket] ∧
    (mkRat 1019 10 : ℚ) < 102 ∧ 70 ≤ (mkRat 1019 10 : ℚ) ∧
    Cell.num 30 ∉ rankingRow c2Bucket ∧ Cell.num 40 ∉ rankingRow c2Bucket := by
  have hb : bucketOf [c2Rec] c2Key = [c2Rec] := by decide
  have h1 : analyze_data [c2Rec] = [mkBucket [c2Rec] c2Key] := rfl
  have hmean : ((bucketOf [c2Rec] c2Key).map (fun r => (r.dealAmount : ℚ))).sum
      / ((bucketOf [c2Rec] c2Key).length : ℚ) = 150000 := by
    rw [hb]
    norm_num [c2Rec]
  have hlatest : ((bucketOf [c2Rec] c2Key).map (fun r => r.dealDate)).foldr dmax ""
      = "2024-01-05" := by decide
  have h2 : mkBucket [c2Rec] c2Key = c2Bucket := by
    unfold mkBucket
    rw [RankingRecord.mk.injEq]
    refine ⟨rfl, by decide, hmean, hlatest, ?_⟩
    rw [hmean]
    decide
  refine ⟨?_, by decide, by decide, by decide, by decide⟩
  rw [h1, h2]

/-! ### C5: the 37-month task window -/

theorem daysInMonth_pos (y m : ℕ) : 1 ≤ daysInMonth y m := by
  unfold daysInMonth
  split_ifs <;> norm_num

theorem addMonth_valid {d : Date} (h : ValidDate d) : ValidDate (addMonth d) := by
  obtain ⟨h1, h2, h3, h4⟩ := h
  refine ⟨?_, ?_, le_min h3 (daysInMonth_pos _ _), min_le_right _ _⟩
  · show 1 ≤ (if d.month = 12 then 1 else d.month + 1)
    by_cases hm : d.month = 12 <;> simp [hm]
  · show (if d.month = 12 then 1 else d.month + 1) ≤ 12
    by_cases hm : d.month = 12
    · simp [hm]
    · simp only [hm, if_false]
      omega

theorem addMonth_monthIdx {d : Date} (h : ValidDate d) :
    monthIdx (addMonth d) = monthIdx d + 1 := by
  obtain ⟨h1, h2, _, _⟩ := h
  unfold monthIdx addMonth
  dsimp only
  by_cases hm : d.month = 12
  · simp only [hm, if_true]
    omega
  · simp only [hm, if_false]
    omega

theorem addMonth_day_le (d : Date) : (addMonth d).day ≤ d.day :=
  min_le_left _ _

theorem dateLe_iff {a b : Date} (ha : ValidDate a) (hb : ValidDate b) :
    dateLe a b = true ↔
      (monthIdx a < monthIdx b ∨ (monthIdx a = monthIdx b ∧ a.day ≤ b.day)) := by
  obtain ⟨ha1, ha2, _, _⟩ := ha
  obtain ⟨hb1, hb2, _, _⟩ := hb
  unfold dateLe monthIdx
  simp only [Bool.or_eq_true, Bool.and_eq_true, decide_eq_true_eq]
  omega

theorem strftimeYm_eq {d : Date} (h : ValidDate d) :
    strftimeYm d = ymToken (monthIdx d) := by
  obtain ⟨h1, h2, _, _⟩ := h
  unfold strftimeYm ymToken monthIdx
  have hy : (12 * d.year + (d.month - 1)) / 12 = d.year := by omega
  have hm : (12 * d.year + (d.month - 1)) % 12 + 1 = d.month := by omega
  rw [hy, hm]

/-- The month loop, fully characterised: starting `n` months before `fin`
(with the start day not exceeding the end day, as `relativedelta` guarantees)
and with enough fuel, it emits exactly the `n + 1` consecutive month tokens
from the start month to `fin`'s month. -/
theorem monthTokens_spec : ∀ (n fuel : ℕ) (curr fin : Date),
    ValidDate curr → ValidDate fin → monthIdx fin = monthIdx curr + n →
    curr.day ≤ fin.day → n + 2 ≤ fuel →
    monthTokens fuel curr fin
      = (List.range (n + 1)).map (fun i => ymToken (monthIdx curr + i)) := by
  intro n
  induction n with
  | zero =>
    intro fuel curr fin hc hf hidx hday hfuel
    obtain ⟨f, rfl⟩ : ∃ f, fuel = f + 2 := ⟨fuel - 2, by omega⟩
    have hle : dateLe curr fin = true :=
      (dateLe_iff hc hf).mpr (Or.inr ⟨by omega, hday⟩)
    have hle2 : dateLe (addMonth curr) fin = false := by
      cases h2 : dateLe (addMonth curr) fin
      · rfl
      · have h3 := (dateLe_iff (addMonth_valid hc) hf).mp h2
        rw [addMonth_monthIdx hc] at h3
        omega
    rw [show monthTokens (f + 2) curr fin
        = if dateLe curr fin then
            strftimeYm curr :: monthTokens (f + 1) (addMonth curr) fin
          else [] from rfl,
      if_pos hle,
      show monthTokens (f + 1) (addMonth curr) fin
        = if dateLe (addMonth curr) fin then
            strftimeYm (addMonth curr) :: monthTokens f (addMonth (addMonth curr)) fin
          else [] from rfl,
      if_neg (by simp [hle2])]
    rw [strftimeYm_eq hc]
    rfl
  | succ n ih =>
    intro fuel curr fin hc hf hidx hday hfuel
    obtain ⟨f, rfl⟩ : ∃ f, fuel = f + 1 := ⟨fuel - 1, by omega⟩
    have hle : dateLe curr fin = true :=
      (dateLe_iff hc hf).mpr (Or.inl (by omega))
    have hrec := ih f (addMonth curr) fin (addMonth_valid hc) hf
      (by rw [addMonth_monthIdx hc]; omega)
      (le_trans (addMonth_day_le curr) hday)
      (by omega)
    rw [show monthTokens (f + 1) curr fin
        = if dateLe curr fin then
            strftimeYm curr :: monthTokens f (addMonth curr) fin
          else [] from rfl,
      if_pos hle, hrec, addMonth_monthIdx hc, strftimeYm_eq hc,
      show List.range (n + 1 + 1) = 0 :: (List.range (n + 1)).map Nat.succ
        from List.range_succ_eq_map _]
    simp only [List.map_cons, List.map_map, Nat.add_zero]
    congr 1
    apply List.map_congr_left
    intro i _
    simp only [Function.comp_apply]
    congr 1
    omega

theorem subYears3_valid {d : Date} (h : ValidDate d) : ValidDate (subYears3 d) := by
  obtain ⟨h1, h2, h3, h4⟩ := h
  exact ⟨h1, h2, le_min h3 (daysInMonth_pos _ _), min_le_right _ _⟩

theorem flatMap_const_length {α β : Type} (l : List α) (g : α → List β) (k : ℕ)
    (h : ∀ a, (g a).length = k) : (l.flatMap g).length = l.length * k := by
  induction l with
  | nil => simp
  | cons x xs ih =>
    simp only [List.flatMap_cons, List.length_append, List.length_cons, h, ih]
    ring

/-- C5: for every valid `today` with at least three years on the calendar,
the month-token list built by `collect_and_save_data` is exactly the 37
consecutive months running from the month of (today − 3 years) through
today's month — the i-th token is the token of month start + i, so the
sequence has length exactly 37 and is strictly increasing chronologically —
and the task list crosses every configured district with every one of the 37
months, so its length is (number of districts) × 37. -/
theorem collect_month_window (today : Date) (h : ValidDate today)
    (h3 : 3 ≤ today.year) :
    monthsOf today
      = (List.range 37).map (fun i => ymToken (monthIdx (subYears3 today) + i)) ∧
    monthIdx (subYears3 today) = monthIdx today - 36 ∧
    (monthsOf today).length = 37 ∧
    (collect_tasks today).length = SEOUL_DISTRICTS.length * 37 := by
  have hidx : monthIdx (subYears3 today) = monthIdx today - 36 := by
    obtain ⟨h1, h2, _, _⟩ := h
    unfold monthIdx subYears3
    dsimp only
    omega
  have h36 : 36 ≤ monthIdx today := by
    unfold monthIdx
    omega
  have hmain : monthsOf today
      = (List.range 37).map (fun i => ymToken (monthIdx (subYears3 today) + i)) := by
    unfold monthsOf
    exact monthTokens_spec 36 50 (subYears3 today) today (subYears3_valid h) h
      (by omega) (min_le_left _ _) (by omega)
  have hlen : (monthsOf today).length = 37 := by
    rw [hmain]
    simp
  refine ⟨hmain, hidx, hlen, ?_⟩
  unfold collect_tasks
  rw [flatMap_const_length _ _ 37 (fun a => by rw [List.length_map, hlen])]

/-- Witness for C5: the window for today = 2026-10-12 (37 tokens, 202310
through 202610, and 25 × 37 tasks). -/
theorem collect_month_window_witness :
    monthsOf ⟨2026, 10, 12⟩
      = (List.range 37).map
          (fun i => ymToken (monthIdx (subYears3 ⟨2026, 10, 12⟩) + i)) ∧
    monthIdx (subYears3 ⟨2026, 10, 12⟩) = monthIdx ⟨2026, 10, 12⟩ - 36 ∧
    (monthsOf ⟨2026, 10, 12⟩).length = 37 ∧
    (collect_tasks ⟨2026, 10, 12⟩).length = SEOUL_DISTRICTS.length * 37 :=
  collect_month_window ⟨2026, 10, 12⟩ (by decide) (by decide)

end AptRank
